import Mathlib

/-!
Verification development for the Lizard Wizard Arena battle engine
(src/rpg_game.py): a shallow embedding of the Fighter/Ability data model,
the damage and effect resolver, the round scheduler and the 2v2 battle
loop, followed by theorems settling the specification claims.

Python ints are embedded as Lean integers; Python floats (accuracy and
target_defense_scale values) are embedded as exact rationals; the global
random source is made explicit: each resolver call receives its accuracy
roll (a rational in the half-open unit interval) and its damage jitter
(an integer drawn from the closed interval from -4 to 4) as parameters,
and the round scheduler receives one tiebreak value per planned action.
Console printing is embedded as an explicit event list.
-/

namespace RpgGame

/-- Ability record, from the frozen dataclass at src/rpg_game.py lines 20-30. -/
structure Ability where
  name : String
  power : ℤ
  kind : String
  accuracy : ℚ := 1
  self_damage : ℤ := 0
  self_slow : ℤ := 0
  target_defense_scale : ℚ := 1
  heal_amount : ℤ := 0
  description : String := ""
deriving Repr, DecidableEq

/-- Fighter record, from the dataclass at src/rpg_game.py lines 33-41. -/
structure Fighter where
  name : String
  faction : String
  hp : ℤ
  max_hp : ℤ
  defense : ℤ
  speed : ℤ
  abilities : List Ability
deriving Repr, DecidableEq

/-- The alive property at lines 43-45: hp strictly positive. -/
def Fighter.alive (f : Fighter) : Bool := 0 < f.hp

/-- Fighter.take_damage at lines 47-50: clamps the amount below at 0,
clamps hp below at 0, and returns the clamped amount (dealt). -/
def Fighter.take_damage (f : Fighter) (amount : ℤ) : Fighter × ℤ :=
  let dealt := max amount 0
  ({ f with hp := max (f.hp - dealt) 0 }, dealt)

/-- Fighter.heal at lines 52-55: clamps the amount below at 0, clamps hp
above at max_hp, and returns the hp actually gained. -/
def Fighter.heal (f : Fighter) (amount : ℤ) : Fighter × ℤ :=
  let newHp := min f.max_hp (f.hp + max 0 amount)
  ({ f with hp := newHp }, newHp - f.hp)

/-- PlannedAction record at lines 58-62.  The actor and target fields hold
the fighter states at resolution time. -/
structure PlannedAction where
  actor : Fighter
  ability : Ability
  target : Fighter
deriving Repr, DecidableEq

/-- One console line of resolve_action, as an abstract event. -/
inductive Event where
  | cannotAct (who : String)
  | healed (who : String) (amount : ℤ)
  | wasted (who : String)
  | hit (who target : String) (damage : ℤ)
  | missed (who : String)
  | recoil (who : String) (amount : ℤ)
  | slowed (who : String) (oldSpeed newSpeed : ℤ)
deriving Repr, DecidableEq

/-- Python int() applied to a rational: truncation toward zero. -/
def pyInt (q : ℚ) : ℤ := if 0 ≤ q then ⌊q⌋ else -⌊-q⌋

/-- calculate_damage at lines 280-284.  The call random.randint(-4, 4) is
passed in as the jitter parameter. -/
def calculate_damage (ability : Ability) (attacker target : Fighter)
    (jitter : ℤ) : ℤ :=
  let base := ability.power + jitter
  let effective_def := pyInt ((target.defense : ℚ) * ability.target_defense_scale)
  let dmg := base - effective_def
  max dmg 1

/-- resolve_action at lines 287-316.  The accuracy roll random.random()
and the damage jitter are explicit parameters; the returned triple is the
updated actor state, the updated target state and the emitted events. -/
def resolve_action (action : PlannedAction) (accRoll : ℚ) (jitter : ℤ) :
    Fighter × Fighter × List Event :=
  let actor := action.actor
  let ability := action.ability
  let target := action.target
  if !actor.alive then
    (actor, target, [Event.cannotAct actor.name])
  else
    let primary : Fighter × Fighter × List Event :=
      if ability.kind = "self_heal" then
        let healRes := actor.heal ability.heal_amount
        (healRes.1, target, [Event.healed actor.name healRes.2])
      else
        if !target.alive then
          (actor, target, [Event.wasted actor.name])
        else if accRoll ≤ ability.accuracy then
          let damage := calculate_damage ability actor target jitter
          (actor, (target.take_damage damage).1,
            [Event.hit actor.name target.name damage])
        else
          (actor, target, [Event.missed actor.name])
    let afterRecoil : Fighter × List Event :=
      if ability.self_damage ≠ 0 then
        let recoilRes := primary.1.take_damage ability.self_damage
        (recoilRes.1, primary.2.2 ++ [Event.recoil actor.name recoilRes.2])
      else
        (primary.1, primary.2.2)
    let afterSlow : Fighter × List Event :=
      if ability.self_slow ≠ 0 then
        let newSpeed := max 1 (afterRecoil.1.speed - ability.self_slow)
        ({ afterRecoil.1 with speed := newSpeed },
          afterRecoil.2 ++ [Event.slowed actor.name afterRecoil.1.speed newSpeed])
      else
        afterRecoil
    (afterSlow.1, primary.2.1, afterSlow.2)

/-- all_down at lines 319-320. -/
def all_down (team : List Fighter) : Bool :=
  team.all fun f => !f.alive

/-- The planning phase of one batch round, lines 341-349: every living
reptile then every living mammal contributes exactly one planned action,
before any resolution occurs.  The choose functions stand for the
interactive choose_action calls and return the chosen ability and target
for a given fighter. -/
def collectPlans (reptiles mammals : List Fighter)
    (chooseR chooseM : Fighter → Ability × Fighter) : List PlannedAction :=
  ((reptiles.filter fun f => f.alive).map fun f =>
    { actor := f, ability := (chooseR f).1, target := (chooseR f).2 }) ++
  ((mammals.filter fun f => f.alive).map fun f =>
    { actor := f, ability := (chooseM f).1, target := (chooseM f).2 })

/-- The sort-order relation used at line 352: plans.sort with key
(actor.speed, random tiebreak) and reverse=True puts a plan before
another exactly when its key pair is lexicographically at least the
other's. -/
def planBefore (a b : PlannedAction × ℚ) : Prop :=
  b.1.actor.speed < a.1.actor.speed ∨
    (b.1.actor.speed = a.1.actor.speed ∧ b.2 ≤ a.2)

instance : DecidableRel planBefore := fun a b => by
  unfold planBefore
  infer_instance

instance : IsTotal (PlannedAction × ℚ) planBefore where
  total a b := by
    unfold planBefore
    rcases lt_trichotomy (a.1.actor.speed) (b.1.actor.speed) with h | h | h
    · exact Or.inr (Or.inl h)
    · rcases le_total b.2 a.2 with h2 | h2
      · exact Or.inl (Or.inr ⟨h.symm, h2⟩)
      · exact Or.inr (Or.inr ⟨h, h2⟩)
    · exact Or.inl (Or.inl h)

instance : IsTrans (PlannedAction × ℚ) planBefore where
  trans a b c hab hbc := by
    unfold planBefore at *
    rcases hab with h1 | ⟨h1, h1q⟩
    · rcases hbc with h2 | ⟨h2, _⟩
      · exact Or.inl (h2.trans h1)
      · exact Or.inl (h2 ▸ h1)
    · rcases hbc with h2 | ⟨h2, h2q⟩
      · exact Or.inl (h1 ▸ h2)
      · exact Or.inr ⟨h2.trans h1, h2q.trans h1q⟩

/-- The scheduling step at line 352: each plan is decorated with one fresh
random tiebreak value, the decorated list is sorted descending by the
(speed, tiebreak) key, and the decorations are dropped. -/
def scheduleRound (plans : List PlannedAction) (ties : List ℚ) :
    List PlannedAction :=
  (List.insertionSort planBefore (plans.zip ties)).map Prod.fst

/-- Outcome of a 2v2 battle, from the report at lines 360-366. -/
inductive Outcome where
  | draw
  | reptilesWin
  | mammalsWin
deriving Repr, DecidableEq

/-- The loop guard at line 337. -/
def battleContinues (reptiles mammals : List Fighter) : Bool :=
  !all_down reptiles && !all_down mammals

/-- The outcome report at lines 361-366. -/
def battleOutcome (reptiles mammals : List Fighter) : Outcome :=
  if all_down reptiles && all_down mammals then Outcome.draw
  else if all_down mammals then Outcome.reptilesWin
  else Outcome.mammalsWin

/-- The battle loop of battle_2v2 at lines 333-366, with the interactive,
randomized round body abstracted as a state transformer and an explicit
fuel bound (the source loop has no round cap). -/
def battle_2v2 (round : List Fighter × List Fighter → List Fighter × List Fighter) :
    ℕ → List Fighter × List Fighter → Option Outcome
  | 0, _ => none
  | fuel + 1, st =>
    if battleContinues st.1 st.2 then battle_2v2 round fuel (round st)
    else some (battleOutcome st.1 st.2)

/-- The reptile roster entries of build_roster at lines 66-119. -/
def reptileRoster : List (String × Fighter) :=
  [("pyra",
    { name := "Pyra", faction := "reptile", hp := 100, max_hp := 100,
      defense := 8, speed := 14,
      abilities :=
        [{ name := "Flame Dart", power := 24, kind := "attack",
           description := "Reliable fire spell." },
         { name := "Volcanic Surge", power := 38, kind := "heavy_attack",
           accuracy := 3/4, self_damage := 6,
           description := "Huge burst; recoil on cast." },
         { name := "Molten Shedding", power := 0, kind := "self_heal",
           heal_amount := 20, self_slow := 2,
           description := "Heals but lowers own speed this round." }] }),
   ("strix",
    { name := "Strix", faction := "reptile", hp := 92, max_hp := 92,
      defense := 7, speed := 18,
      abilities :=
        [{ name := "Arc Lash", power := 20, kind := "attack",
           description := "Fast crackling strike." },
         { name := "Static Implosion", power := 34, kind := "heavy_attack",
           accuracy := 4/5, self_slow := 3,
           description := "Big damage but drains momentum." },
         { name := "Hex Siphon", power := 16, kind := "guard_break",
           target_defense_scale := 2/5,
           description := "Penetrates defense with cursed shock." }] }),
   ("verdra",
    { name := "Verdra", faction := "reptile", hp := 112, max_hp := 112,
      defense := 11, speed := 10,
      abilities :=
        [{ name := "Thorn Volley", power := 22, kind := "attack",
           description := "Nature-infused projectile burst." },
         { name := "Basilisk Gaze", power := 30, kind := "guard_break",
           target_defense_scale := 3/10, accuracy := 17/20,
           description := "Armor-piercing petrify beam." },
         { name := "Regrowth Ritual", power := 0, kind := "self_heal",
           heal_amount := 26, self_damage := 5,
           description := "Powerful heal that costs blood." }] }),
   ("nox",
    { name := "Nox", faction := "reptile", hp := 98, max_hp := 98,
      defense := 9, speed := 15,
      abilities :=
        [{ name := "Shadow Fang", power := 23, kind := "attack",
           description := "Dark magic bite." },
         { name := "Nightfall Rift", power := 40, kind := "heavy_attack",
           accuracy := 7/10, self_damage := 8,
           description := "Massive tear in space, harsh recoil." },
         { name := "Veil Pierce", power := 18, kind := "guard_break",
           target_defense_scale := 1/5,
           description := "Low raw damage, almost ignores armor." }] })]

/-- The mammal roster entries of build_roster at lines 121-174. -/
def mammalRoster : List (String × Fighter) :=
  [("brakk",
    { name := "Brakk", faction := "mammal", hp := 120, max_hp := 120,
      defense := 13, speed := 9,
      abilities :=
        [{ name := "Cleaver Chop", power := 22, kind := "attack",
           description := "Heavy cleaver slash." },
         { name := "Earthsplitter", power := 36, kind := "heavy_attack",
           accuracy := 39/50, self_slow := 2,
           description := "Crushing blow; slows the wielder." },
         { name := "Ribbreaker", power := 19, kind := "guard_break",
           target_defense_scale := 7/20,
           description := "Armor-cracking strike." }] }),
   ("lyra",
    { name := "Lyra", faction := "mammal", hp := 96, max_hp := 96,
      defense := 8, speed := 19,
      abilities :=
        [{ name := "Twin Daggers", power := 21, kind := "attack",
           description := "Rapid dual stab." },
         { name := "Crimson Rush", power := 33, kind := "heavy_attack",
           accuracy := 41/50, self_damage := 5,
           description := "Risky lunge with self-bleed." },
         { name := "Bandage Twist", power := 0, kind := "self_heal",
           heal_amount := 18, self_slow := 1,
           description := "Patch wounds, lose a bit of tempo." }] }),
   ("tor",
    { name := "Tor", faction := "mammal", hp := 110, max_hp := 110,
      defense := 12, speed := 12,
      abilities :=
        [{ name := "Warhammer Jab", power := 23, kind := "attack",
           description := "Controlled hammer strike." },
         { name := "Sundering Slam", power := 31, kind := "guard_break",
           target_defense_scale := 1/4, accuracy := 43/50,
           description := "Defense-shattering overhead swing." },
         { name := "Last Stand", power := 39, kind := "heavy_attack",
           accuracy := 18/25, self_damage := 9,
           description := "Huge hit with dangerous recoil." }] }),
   ("sable",
    { name := "Sable", faction := "mammal", hp := 104, max_hp := 104,
      defense := 10, speed := 16,
      abilities :=
        [{ name := "Spear Thrust", power := 22, kind := "attack",
           description := "Precise piercing thrust." },
         { name := "Skewer Storm", power := 35, kind := "heavy_attack",
           accuracy := 79/100, self_slow := 2,
           description := "Ferocious combo that overextends." },
         { name := "Hamstring Cut", power := 17, kind := "guard_break",
           target_defense_scale := 3/10,
           description := "Lowers impact of enemy armor." }] })]

/-- build_roster at lines 65-176: the faction-keyed fighter table. -/
def build_roster : List (String × List (String × Fighter)) :=
  [("reptile", reptileRoster), ("mammal", mammalRoster)]

/-- Modelled from the spec: the source contains no duel (1v1) mode — only
battle_2v2 exists — so the alternating-mode scheduler of spec section 4.2
is modelled from its words: the initial attacker is determined by one
random coin flip, not by speed. -/
def duelInitialAttacker (fighterA fighterB : Fighter) (coinFlip : Bool) : Bool :=
  coinFlip

/-- Modelled from the spec: in alternating (1v1) mode each completed turn
toggles attacker and defender, with no speed-based reordering; the value
is true when the coin-flip winner attacks on the given turn. -/
def duelAttackerAt (fighterA fighterB : Fighter) (coinFlip : Bool) : ℕ → Bool
  | 0 => duelInitialAttacker fighterA fighterB coinFlip
  | n + 1 => !(duelAttackerAt fighterA fighterB coinFlip n)

/-! Concrete test instances used to instantiate the theorems below. -/

/-- A healthy test fighter. -/
def testAttacker : Fighter :=
  { name := "Atk", faction := "reptile", hp := 50, max_hp := 60,
    defense := 4, speed := 7, abilities := [] }

/-- A healthy test target. -/
def testDefender : Fighter :=
  { name := "Dfn", faction := "mammal", hp := 40, max_hp := 40,
    defense := 6, speed := 3, abilities := [] }

/-- A fighter at 3 hp, for exercising damage clamping. -/
def lowHpFighter : Fighter :=
  { name := "Weary", faction := "mammal", hp := 3, max_hp := 100,
    defense := 0, speed := 5, abilities := [] }

/-- A downed fighter. -/
def downedFighter : Fighter :=
  { name := "Down", faction := "reptile", hp := 0, max_hp := 80,
    defense := 2, speed := 9, abilities := [] }

/-- A test attack with accuracy zero, for probing the accuracy roll. -/
def zeroAccuracyStrike : Ability :=
  { name := "Hopeless Strike", power := 10, kind := "attack", accuracy := 0 }

/-- A test attack with both drawbacks, for probing recoil and slow. -/
def recoilSlowStrike : Ability :=
  { name := "Reckless Strike", power := 12, kind := "attack",
    self_damage := 10, self_slow := 9 }

/-- A test self-heal with a recoil drawback, for probing the reported
recoil amount. -/
def drainRite : Ability :=
  { name := "Drain Rite", power := 0, kind := "self_heal",
    heal_amount := 0, self_damage := 10 }

/-- A test attack with fifty percent accuracy, for probing the miss
branch. -/
def halfAccuracyStrike : Ability :=
  { name := "Wild Swing", power := 5, kind := "attack", accuracy := 1/2 }

/-- A test self-heal with a large heal amount, for probing the hp cap. -/
def bigHeal : Ability :=
  { name := "Big Heal", power := 0, kind := "self_heal", heal_amount := 20 }

/-! Helper lemmas shared by the claim theorems. -/

/-- Python int() agrees with the floor on nonnegative rationals. -/
theorem pyInt_of_nonneg {q : ℚ} (h : 0 ≤ q) : pyInt q = ⌊q⌋ := by
  simp [pyInt, h]

/-! Claim theorems. -/

/-- C7: if the actor of a planned action is downed when it resolves, the
resolver emits a single cannot-act event and changes neither the actor
nor the target in any way; resolution is a total function, so no valid
planned action raises an error. -/
theorem resolve_action_downed_actor (action : PlannedAction) (accRoll : ℚ)
    (jitter : ℤ) (h : action.actor.hp = 0) :
    resolve_action action accRoll jitter =
      (action.actor, action.target, [Event.cannotAct action.actor.name]) := by
  simp [resolve_action, Fighter.alive, h]

/-- C7 witness: a concrete downed actor resolves to a single cannot-act
event with no state change. -/
theorem resolve_action_downed_actor_witness :
    resolve_action ⟨downedFighter, recoilSlowStrike, testDefender⟩ 0 0 =
      (downedFighter, testDefender, [Event.cannotAct "Down"]) :=
  resolve_action_downed_actor ⟨downedFighter, recoilSlowStrike, testDefender⟩ 0 0 rfl

/-- C8: resolving any action keeps the actor's speed at least 1 whenever
it started at least 1, leaves the target's speed unchanged, and when the
living actor's ability has a nonzero self_slow the actor's speed becomes
exactly max 1 (speed - self_slow). -/
theorem self_slow_floors_speed_at_one (a t : Fighter) (ab : Ability)
    (r : ℚ) (j : ℤ) (hs : 1 ≤ a.speed) :
    1 ≤ (resolve_action ⟨a, ab, t⟩ r j).1.speed ∧
    (resolve_action ⟨a, ab, t⟩ r j).2.1.speed = t.speed ∧
    (a.alive = true → ab.self_slow ≠ 0 →
      (resolve_action ⟨a, ab, t⟩ r j).1.speed = max 1 (a.speed - ab.self_slow)) := by
  refine ⟨?_, ?_, ?_⟩
  · simp only [resolve_action]
    split_ifs <;> simp [Fighter.take_damage, Fighter.heal] <;> omega
  · simp only [resolve_action]
    split_ifs <;> simp [Fighter.take_damage, Fighter.heal]
  · intro hAlive hSlow
    simp only [resolve_action, hAlive]
    split_ifs <;> simp_all [Fighter.take_damage, Fighter.heal]

/-- C8 witness: a concrete fighter of speed 7 using a self_slow 9 attack
ends at speed exactly 1 and the target's speed is untouched. -/
theorem self_slow_floors_speed_at_one_witness :
    1 ≤ (resolve_action ⟨testAttacker, recoilSlowStrike, testDefender⟩ 0 0).1.speed ∧
    (resolve_action ⟨testAttacker, recoilSlowStrike, testDefender⟩ 0 0).2.1.speed =
      testDefender.speed ∧
    (testAttacker.alive = true → recoilSlowStrike.self_slow ≠ 0 →
      (resolve_action ⟨testAttacker, recoilSlowStrike, testDefender⟩ 0 0).1.speed =
        max 1 (testAttacker.speed - recoilSlowStrike.self_slow)) :=
  self_slow_floors_speed_at_one testAttacker testDefender recoilSlowStrike 0 0
    (by decide)

/-- C10: take_damage returns the clamped input amount, not the hp it
actually removed; concretely a fighter at 3 hp taking 10 damage yields a
return value of 10 while hp only drops by 3, and a recoil of 10 on a 3 hp
actor is reported as 10 in the recoil event while the actor ends at 0 hp. -/
theorem take_damage_reports_clamped_amount :
    (∀ (f : Fighter) (amount : ℤ),
      (f.take_damage amount).2 = max amount 0 ∧
      (f.take_damage amount).1.hp = max (f.hp - max amount 0) 0) ∧
    (lowHpFighter.take_damage 10).2 = 10 ∧
    (lowHpFighter.take_damage 10).1.hp = 0 ∧
    lowHpFighter.hp - (lowHpFighter.take_damage 10).1.hp = 3 ∧
    Event.recoil "Weary" 10 ∈
      (resolve_action ⟨lowHpFighter, drainRite, lowHpFighter⟩ 0 0).2.2 ∧
    (resolve_action ⟨lowHpFighter, drainRite, lowHpFighter⟩ 0 0).1.hp = 0 := by
  refine ⟨fun f amount => ⟨rfl, rfl⟩, by decide, by decide, by decide, ?_, ?_⟩ <;>
    simp [resolve_action, Fighter.alive, Fighter.heal, Fighter.take_damage,
      lowHpFighter, drainRite]

/-- C1: against a living target and a successful accuracy roll, the damage
of attack, heavy_attack and guard_break abilities is exactly
max 1 (power + jitter - floor (defense times the defense scale)); it is
applied to the target's hp (clamped at 0), reported in the hit event, and
is at least 1 however large the defense. -/
theorem damage_formula_and_floor_at_one (a t : Fighter) (ab : Ability)
    (r : ℚ) (j : ℤ) (hAlive : a.alive = true) (hTAlive : t.alive = true)
    (hKind : ab.kind ≠ "self_heal") (hAcc : r ≤ ab.accuracy)
    (hDef : 0 ≤ t.defense) (hScale : 0 ≤ ab.target_defense_scale) :
    calculate_damage ab a t j =
      max 1 (ab.power + j - ⌊(t.defense : ℚ) * ab.target_defense_scale⌋) ∧
    1 ≤ calculate_damage ab a t j ∧
    (resolve_action ⟨a, ab, t⟩ r j).2.1.hp =
      max (t.hp - calculate_damage ab a t j) 0 ∧
    (resolve_action ⟨a, ab, t⟩ r j).2.2.head? =
      some (Event.hit a.name t.name (calculate_damage ab a t j)) := by
  have hq : (0 : ℚ) ≤ (t.defense : ℚ) * ab.target_defense_scale :=
    mul_nonneg (by exact_mod_cast hDef) hScale
  have hform : calculate_damage ab a t j =
      max 1 (ab.power + j - ⌊(t.defense : ℚ) * ab.target_defense_scale⌋) := by
    simp [calculate_damage, pyInt_of_nonneg hq, max_comm]
  have hone : 1 ≤ calculate_damage ab a t j := by
    rw [hform]; exact le_max_left _ _
  refine ⟨hform, hone, ?_, ?_⟩ <;>
  · simp only [resolve_action, hAlive, hKind, hTAlive, hAcc]
    split_ifs <;>
      simp_all [Fighter.take_damage, max_eq_left (le_trans zero_le_one hone)]

/-- C1 witness: a concrete successful accuracy roll with jitter 0 deals
max 1 (10 - 6) = 4 damage to a defense 6 target. -/
theorem damage_formula_and_floor_at_one_witness :
    calculate_damage recoilSlowStrike testAttacker testDefender 0 =
      max 1 (recoilSlowStrike.power + 0 -
        ⌊(testDefender.defense : ℚ) * recoilSlowStrike.target_defense_scale⌋) ∧
    1 ≤ calculate_damage recoilSlowStrike testAttacker testDefender 0 ∧
    (resolve_action ⟨testAttacker, recoilSlowStrike, testDefender⟩ 0 0).2.1.hp =
      max (testDefender.hp -
        calculate_damage recoilSlowStrike testAttacker testDefender 0) 0 ∧
    (resolve_action ⟨testAttacker, recoilSlowStrike, testDefender⟩ 0 0).2.2.head? =
      some (Event.hit testAttacker.name testDefender.name
        (calculate_damage recoilSlowStrike testAttacker testDefender 0)) :=
  damage_formula_and_floor_at_one testAttacker testDefender recoilSlowStrike 0 0
    (by decide) (by decide) (by decide) (by norm_num [recoilSlowStrike])
    (by decide) (by norm_num [recoilSlowStrike])

/-- C2: starting from hp within bounds for actor and target, resolving any
action keeps both fighters' hp within 0 and max_hp, and healing by a
nonnegative amount sets hp to exactly min max_hp (hp + amount). -/
theorem hp_stays_in_bounds (a t : Fighter) (ab : Ability) (r : ℚ) (j : ℤ)
    (ha0 : 0 ≤ a.hp) (ha1 : a.hp ≤ a.max_hp)
    (ht0 : 0 ≤ t.hp) (ht1 : t.hp ≤ t.max_hp) :
    (0 ≤ (resolve_action ⟨a, ab, t⟩ r j).1.hp ∧
     (resolve_action ⟨a, ab, t⟩ r j).1.hp ≤ a.max_hp ∧
     0 ≤ (resolve_action ⟨a, ab, t⟩ r j).2.1.hp ∧
     (resolve_action ⟨a, ab, t⟩ r j).2.1.hp ≤ t.max_hp) ∧
    (∀ (f : Fighter) (amt : ℤ), 0 ≤ amt →
      (f.heal amt).1.hp = min f.max_hp (f.hp + amt)) := by
  constructor
  · simp only [resolve_action]
    split_ifs <;> simp [Fighter.take_damage, Fighter.heal] <;> omega
  · intro f amt hamt
    simp [Fighter.heal, max_eq_right hamt]

/-- C2 witness: a concrete 50/60 hp actor healing 20 lands at exactly 60,
and both fighters stay within hp bounds. -/
theorem hp_stays_in_bounds_witness :
    (0 ≤ (resolve_action ⟨testAttacker, bigHeal, testDefender⟩ 0 0).1.hp ∧
     (resolve_action ⟨testAttacker, bigHeal, testDefender⟩ 0 0).1.hp ≤
       testAttacker.max_hp ∧
     0 ≤ (resolve_action ⟨testAttacker, bigHeal, testDefender⟩ 0 0).2.1.hp ∧
     (resolve_action ⟨testAttacker, bigHeal, testDefender⟩ 0 0).2.1.hp ≤
       testDefender.max_hp) ∧
    (∀ (f : Fighter) (amt : ℤ), 0 ≤ amt →
      (f.heal amt).1.hp = min f.max_hp (f.hp + amt)) :=
  hp_stays_in_bounds testAttacker testDefender bigHeal 0 0
    (by decide) (by decide) (by decide) (by decide)

/-- C5 counterexample: the claim that an accuracy 0 ability always misses
fails at the roll r = 0, which the source's roll can produce: with
accuracy 0 and roll 0 the hit branch is taken and damage is dealt. -/
theorem accuracy_zero_roll_zero_hits :
    (resolve_action ⟨testAttacker, zeroAccuracyStrike, testDefender⟩ 0 0).2.2 =
      [Event.hit "Atk" "Dfn" 4] ∧
    (resolve_action ⟨testAttacker, zeroAccuracyStrike, testDefender⟩ 0 0).2.1.hp = 36 := by
  constructor <;>
    · norm_num [resolve_action, calculate_damage, pyInt, Fighter.alive,
        Fighter.take_damage, testAttacker, testDefender, zeroAccuracyStrike]
      rfl

/-- C5 (amended): against a living target the miss branch is taken exactly
when the roll exceeds the accuracy, so an accuracy 1 ability never misses
for any roll in the unit half-open interval, and an accuracy 0 ability
misses for every strictly positive roll (at the boundary roll 0 it hits). -/
theorem accuracy_roll_miss_condition (a t : Fighter) (ab : Ability)
    (r : ℚ) (j : ℤ) (hAlive : a.alive = true) (hTAlive : t.alive = true)
    (hKind : ab.kind ≠ "self_heal") (hr0 : 0 ≤ r) (hr1 : r < 1) :
    ((resolve_action ⟨a, ab, t⟩ r j).2.2.head? = some (Event.missed a.name) ↔
      ab.accuracy < r) ∧
    (ab.accuracy = 1 →
      (resolve_action ⟨a, ab, t⟩ r j).2.2.head? ≠ some (Event.missed a.name)) ∧
    (ab.accuracy = 0 → 0 < r →
      (resolve_action ⟨a, ab, t⟩ r j).2.2.head? = some (Event.missed a.name)) := by
  by_cases hacc : r ≤ ab.accuracy
  · have hhit : (resolve_action ⟨a, ab, t⟩ r j).2.2.head? =
        some (Event.hit a.name t.name (calculate_damage ab a t j)) := by
      simp only [resolve_action, hAlive, hKind, hTAlive, hacc]
      split_ifs <;> simp_all
    refine ⟨?_, fun _ => ?_, fun h0 hr => ?_⟩
    · simp [hhit, not_lt.mpr hacc]
    · simp [hhit]
    · exact absurd (lt_of_lt_of_le hr (h0 ▸ hacc)) (lt_irrefl 0)
  · have hmiss : (resolve_action ⟨a, ab, t⟩ r j).2.2.head? =
        some (Event.missed a.name) := by
      simp only [resolve_action, hAlive, hKind, hTAlive, hacc]
      split_ifs <;> simp_all
    refine ⟨?_, fun h1 => ?_, fun _ _ => hmiss⟩
    · simp [hmiss, not_le.mp hacc]
    · exact absurd (le_of_lt (h1 ▸ hr1)) hacc

/-- C5 witness: with accuracy one half and roll three quarters the miss
branch is taken, and an accuracy 1 ability never misses here. -/
theorem accuracy_roll_miss_condition_witness :
    ((resolve_action ⟨testAttacker, halfAccuracyStrike, testDefender⟩ (3/4) 0).2.2.head? =
        some (Event.missed testAttacker.name) ↔
      halfAccuracyStrike.accuracy < 3/4) ∧
    (halfAccuracyStrike.accuracy = 1 →
      (resolve_action ⟨testAttacker, halfAccuracyStrike, testDefender⟩ (3/4) 0).2.2.head? ≠
        some (Event.missed testAttacker.name)) ∧
    (halfAccuracyStrike.accuracy = 0 → 0 < (3/4 : ℚ) →
      (resolve_action ⟨testAttacker, halfAccuracyStrike, testDefender⟩ (3/4) 0).2.2.head? =
        some (Event.missed testAttacker.name)) :=
  accuracy_roll_miss_condition testAttacker testDefender halfAccuracyStrike (3/4) 0
    (by decide) (by decide) (by decide) (by norm_num) (by norm_num)

set_option maxHeartbeats 1000000

/-- C6: for every action resolved by a living actor — whatever the primary
outcome: heal, wasted on a downed target, successful hit, or miss — the
drawbacks are applied afterwards: the actor's hp drops by the clamped
self_damage from its post-primary value (clamped at 0), a nonzero
self_slow floors its speed at max 1 (speed - self_slow), the recoil and
slow events follow the single primary event in order, and on a miss or a
wasted action the target is untouched. -/
theorem drawbacks_apply_regardless_of_outcome (a t : Fighter) (ab : Ability)
    (r : ℚ) (j : ℤ) (hAlive : a.alive = true) :
    (ab.self_damage ≠ 0 →
      (resolve_action ⟨a, ab, t⟩ r j).1.hp =
        max ((if ab.kind = "self_heal"
            then min a.max_hp (a.hp + max 0 ab.heal_amount) else a.hp) -
          max ab.self_damage 0) 0) ∧
    (ab.self_damage = 0 →
      (resolve_action ⟨a, ab, t⟩ r j).1.hp =
        (if ab.kind = "self_heal"
          then min a.max_hp (a.hp + max 0 ab.heal_amount) else a.hp)) ∧
    (ab.self_slow ≠ 0 →
      (resolve_action ⟨a, ab, t⟩ r j).1.speed = max 1 (a.speed - ab.self_slow)) ∧
    (ab.self_slow = 0 → (resolve_action ⟨a, ab, t⟩ r j).1.speed = a.speed) ∧
    (resolve_action ⟨a, ab, t⟩ r j).2.2.head? = some
      (if ab.kind = "self_heal" then Event.healed a.name (a.heal ab.heal_amount).2
       else if t.alive = false then Event.wasted a.name
       else if r ≤ ab.accuracy then
        Event.hit a.name t.name (calculate_damage ab a t j)
       else Event.missed a.name) ∧
    (resolve_action ⟨a, ab, t⟩ r j).2.2.drop 1 =
      (if ab.self_damage ≠ 0 then
        [Event.recoil a.name (max ab.self_damage 0)] else []) ++
      (if ab.self_slow ≠ 0 then
        [Event.slowed a.name a.speed (max 1 (a.speed - ab.self_slow))] else []) ∧
    (ab.kind ≠ "self_heal" → t.alive = false ∨ ab.accuracy < r →
      (resolve_action ⟨a, ab, t⟩ r j).2.1 = t) := by
  by_cases hk : ab.kind = "self_heal"
  · simp [resolve_action, hAlive, hk, Fighter.heal, Fighter.take_damage]
    split_ifs <;> simp_all [Fighter.heal, Fighter.take_damage]
  · by_cases ht : t.alive = true
    · by_cases hacc : r ≤ ab.accuracy
      · simp only [resolve_action, hAlive, hk, ht, hacc]
        split_ifs <;> simp_all [Fighter.take_damage, not_le]
      · simp only [resolve_action, hAlive, hk, ht, hacc]
        split_ifs <;> simp_all [Fighter.take_damage, not_le]
    · simp only [resolve_action, hAlive, hk, ht]
      split_ifs <;> simp_all [Fighter.take_damage]

set_option maxHeartbeats 200000

/-- C6 witness: a living actor landing a successful double-drawback hit
still takes 10 recoil from its post-primary hp of 50, drops from speed 7
to the floor of 1, and emits the recoil and slowed events right after the
hit event. -/
theorem drawbacks_apply_regardless_of_outcome_witness :
    (recoilSlowStrike.self_damage ≠ 0 →
      (resolve_action ⟨testAttacker, recoilSlowStrike, testDefender⟩ 0 0).1.hp =
        max ((if recoilSlowStrike.kind = "self_heal"
            then min testAttacker.max_hp
              (testAttacker.hp + max 0 recoilSlowStrike.heal_amount)
            else testAttacker.hp) -
          max recoilSlowStrike.self_damage 0) 0) ∧
    (recoilSlowStrike.self_damage = 0 →
      (resolve_action ⟨testAttacker, recoilSlowStrike, testDefender⟩ 0 0).1.hp =
        (if recoilSlowStrike.kind = "self_heal"
          then min testAttacker.max_hp
            (testAttacker.hp + max 0 recoilSlowStrike.heal_amount)
          else testAttacker.hp)) ∧
    (recoilSlowStrike.self_slow ≠ 0 →
      (resolve_action ⟨testAttacker, recoilSlowStrike, testDefender⟩ 0 0).1.speed =
        max 1 (testAttacker.speed - recoilSlowStrike.self_slow)) ∧
    (recoilSlowStrike.self_slow = 0 →
      (resolve_action ⟨testAttacker, recoilSlowStrike, testDefender⟩ 0 0).1.speed =
        testAttacker.speed) ∧
    (resolve_action ⟨testAttacker, recoilSlowStrike, testDefender⟩ 0 0).2.2.head? =
      some
      (if recoilSlowStrike.kind = "self_heal" then
        Event.healed testAttacker.name
          (testAttacker.heal recoilSlowStrike.heal_amount).2
       else if testDefender.alive = false then Event.wasted testAttacker.name
       else if (0 : ℚ) ≤ recoilSlowStrike.accuracy then
        Event.hit testAttacker.name testDefender.name
          (calculate_damage recoilSlowStrike testAttacker testDefender 0)
       else Event.missed testAttacker.name) ∧
    (resolve_action ⟨testAttacker, recoilSlowStrike, testDefender⟩ 0 0).2.2.drop 1 =
      (if recoilSlowStrike.self_damage ≠ 0 then
        [Event.recoil testAttacker.name (max recoilSlowStrike.self_damage 0)]
       else []) ++
      (if recoilSlowStrike.self_slow ≠ 0 then
        [Event.slowed testAttacker.name testAttacker.speed
          (max 1 (testAttacker.speed - recoilSlowStrike.self_slow))] else []) ∧
    (recoilSlowStrike.kind ≠ "self_heal" →
      testDefender.alive = false ∨ recoilSlowStrike.accuracy < 0 →
      (resolve_action ⟨testAttacker, recoilSlowStrike, testDefender⟩ 0 0).2.1 =
        testDefender) :=
  drawbacks_apply_regardless_of_outcome testAttacker testDefender
    recoilSlowStrike 0 0 (by decide)

end RpgGame

namespace RpgGame

/-- A one-fighter reptile team for instantiating the scheduler theorem. -/
def wReptiles : List Fighter := [testAttacker]

/-- A one-fighter mammal team for instantiating the scheduler theorem. -/
def wMammals : List Fighter := [testDefender]

/-- A constant reptile-side choice function for the scheduler theorem. -/
def wChooseR : Fighter → Ability × Fighter := fun _ => (recoilSlowStrike, testDefender)

/-- A constant mammal-side choice function for the scheduler theorem. -/
def wChooseM : Fighter → Ability × Fighter := fun _ => (recoilSlowStrike, testAttacker)

/-- Two concrete tiebreak values for the scheduler theorem. -/
def wTies : List ℚ := [0, 1/2]

/-- C3: in a batch round exactly one planned action is collected per
living fighter (reptiles first, then mammals; downed fighters contribute
none) before resolution, and the scheduled order is a permutation of
those plans that is sorted descending by the actor's speed, with the
per-round tiebreak values deciding equal-speed ties. -/
theorem round_collects_and_sorts (reptiles mammals : List Fighter)
    (chooseR chooseM : Fighter → Ability × Fighter) (ties : List ℚ)
    (hlen : ties.length = (collectPlans reptiles mammals chooseR chooseM).length) :
    (collectPlans reptiles mammals chooseR chooseM).map PlannedAction.actor =
      (reptiles.filter fun f => f.alive) ++ (mammals.filter fun f => f.alive) ∧
    (∀ p ∈ collectPlans reptiles mammals chooseR chooseM, p.actor.alive = true) ∧
    List.Perm (scheduleRound (collectPlans reptiles mammals chooseR chooseM) ties)
      (collectPlans reptiles mammals chooseR chooseM) ∧
    List.Sorted (fun p q : PlannedAction => q.actor.speed ≤ p.actor.speed)
      (scheduleRound (collectPlans reptiles mammals chooseR chooseM) ties) := by
  have hmap : (collectPlans reptiles mammals chooseR chooseM).map PlannedAction.actor =
      (reptiles.filter fun f => f.alive) ++ (mammals.filter fun f => f.alive) := by
    simp only [collectPlans, List.map_append, List.map_map]
    congr 1 <;> exact List.map_id _
  refine ⟨hmap, ?_, ?_, ?_⟩
  · intro p hp
    have h1 : p.actor ∈ (collectPlans reptiles mammals chooseR chooseM).map
        PlannedAction.actor := List.mem_map_of_mem _ hp
    rw [hmap] at h1
    rcases List.mem_append.mp h1 with h | h <;> exact (List.mem_filter.mp h).2
  · have h1 := (List.perm_insertionSort planBefore
      ((collectPlans reptiles mammals chooseR chooseM).zip ties)).map Prod.fst
    rw [List.map_fst_zip _ _ (le_of_eq hlen.symm)] at h1
    exact h1
  · have hs := List.sorted_insertionSort planBefore
      ((collectPlans reptiles mammals chooseR chooseM).zip ties)
    unfold scheduleRound
    rw [List.Sorted, List.pairwise_map]
    refine hs.imp ?_
    intro a b h
    rcases h with h | ⟨h, _⟩
    · exact le_of_lt h
    · exact le_of_eq h

/-- C3 witness: with one living fighter per team and two tiebreak values,
the plans list the two living actors and the schedule is a speed-sorted
permutation of them. -/
theorem round_collects_and_sorts_witness :
    (collectPlans wReptiles wMammals wChooseR wChooseM).map PlannedAction.actor =
      (wReptiles.filter fun f => f.alive) ++ (wMammals.filter fun f => f.alive) ∧
    (∀ p ∈ collectPlans wReptiles wMammals wChooseR wChooseM, p.actor.alive = true) ∧
    List.Perm (scheduleRound (collectPlans wReptiles wMammals wChooseR wChooseM) wTies)
      (collectPlans wReptiles wMammals wChooseR wChooseM) ∧
    List.Sorted (fun p q : PlannedAction => q.actor.speed ≤ p.actor.speed)
      (scheduleRound (collectPlans wReptiles wMammals wChooseR wChooseM) wTies) :=
  round_collects_and_sorts wReptiles wMammals wChooseR wChooseM wTies rfl

/-- C4: the battle loop runs another round exactly when both teams still
have a living member, and once stopped the outcome is a draw exactly when
both teams are fully downed, a reptile win exactly when only the mammal
team is fully downed, and a mammal win exactly when only the reptile team
is fully downed. -/
theorem battle_guard_and_outcome (reptiles mammals : List Fighter) :
    (battleContinues reptiles mammals = true ↔
      ((∃ f ∈ reptiles, f.alive = true) ∧ (∃ f ∈ mammals, f.alive = true))) ∧
    (∀ (round : List Fighter × List Fighter → List Fighter × List Fighter)
        (fuel : ℕ),
      battle_2v2 round (fuel + 1) (reptiles, mammals) =
        if battleContinues reptiles mammals then
          battle_2v2 round fuel (round (reptiles, mammals))
        else some (battleOutcome reptiles mammals)) ∧
    (battleContinues reptiles mammals = false →
      ((battleOutcome reptiles mammals = Outcome.draw ↔
          all_down reptiles = true ∧ all_down mammals = true) ∧
       (battleOutcome reptiles mammals = Outcome.reptilesWin ↔
          all_down mammals = true ∧ all_down reptiles = false) ∧
       (battleOutcome reptiles mammals = Outcome.mammalsWin ↔
          all_down reptiles = true ∧ all_down mammals = false))) := by
  refine ⟨?_, fun round fuel => rfl, fun hstop => ?_⟩
  · simp [battleContinues, all_down, List.all_eq_true]
  · cases hR : all_down reptiles <;> cases hM : all_down mammals <;>
      simp_all [battleContinues, battleOutcome]

/-- C4 witness: with the reptile team downed and a mammal alive, the loop
stops and the outcome is exactly a mammal win. -/
theorem battle_guard_and_outcome_witness :
    battleOutcome [downedFighter] [testDefender] = Outcome.mammalsWin :=
  (((battle_guard_and_outcome [downedFighter] [testDefender]).2.2
    (by decide)).2.2).mpr (by decide)

/-- C9: in the spec's duel (1v1) mode the initial attacker is exactly the
coin-flip winner, the attacker toggles on every completed turn, and the
attacker on any turn is independent of the fighters (in particular of
their speed stats): it is the coin flip xor the parity of the turn. -/
theorem duel_strictly_alternates (fighterA fighterB otherA otherB : Fighter)
    (coinFlip : Bool) (n : ℕ) :
    duelAttackerAt fighterA fighterB coinFlip 0 = coinFlip ∧
    duelAttackerAt fighterA fighterB coinFlip (n + 1) =
      !(duelAttackerAt fighterA fighterB coinFlip n) ∧
    duelAttackerAt fighterA fighterB coinFlip n =
      duelAttackerAt otherA otherB coinFlip n ∧
    duelAttackerAt fighterA fighterB coinFlip n =
      (coinFlip != decide (n % 2 = 1)) := by
  refine ⟨rfl, rfl, ?_, ?_⟩
  · induction n with
    | zero => rfl
    | succ k ih => simp [duelAttackerAt, ih]
  · induction n with
    | zero => cases coinFlip <;> rfl
    | succ k ih =>
      rw [duelAttackerAt, ih]
      rcases Nat.mod_two_eq_zero_or_one k with h | h
      · have h1 : (k + 1) % 2 = 1 := by omega
        simp [h, h1]
      · have h1 : (k + 1) % 2 = 0 := by omega
        simp [h, h1]

end RpgGame
